import Mathlib

/-!
Verification of the ThreadPulse Daily deterministic game engine.

This file gives a shallow embedding of the engine found in
`src/core/dailyGameEngine.ts` (day-key derivation, FNV-1a seeding,
Mulberry32 selection, guess evaluation, scoring, clue validation and
ranking) and of the session manager `useGameStore` (guess submission,
streak bookkeeping), together with theorems about them.

Modelling conventions:
* JavaScript strings are `List Char`.  `charCodeAt` is modelled by
  `Char.toNat` (identical on the ASCII / BMP inputs the engine handles).
* JavaScript 32-bit operations (`Math.imul`, `^`, `>>> 0`) convert their
  operands with ToInt32 / ToUint32; we model signed 32-bit values as
  `Int` in the range `[-2^31, 2^31)` and unsigned ones as `Nat` below
  `2^32`, with explicit `% 4294967296` where the code wraps.
* `Date` instants are epoch milliseconds (`Int`); the UTC component
  getters of `Date` are modelled by the standard civil-from-days
  calendar algorithm.
* Floating point only appears in the engine as `rng()` values `o / 2^32`
  with `o < 2^32` and as `Math.floor(draw * bank.length)`; both are
  exact in IEEE double precision for the magnitudes involved, so they
  are modelled by exact rational / integer arithmetic.
-/

/-! ## JavaScript 32-bit integer semantics -/

/-- ToUint32: the unsigned 32-bit residue of an integer. -/
def toUint32 (i : Int) : Nat := (i % 4294967296).toNat

/-- Reinterpret an unsigned 32-bit value as a signed 32-bit value
(the result of JavaScript ToInt32 on the same bit pattern). -/
def asInt32 (n : Nat) : Int :=
  if n < 2147483648 then (n : Int) else (n : Int) - 4294967296

/-- `Math.imul a b`: 32-bit wrapping multiplication, signed result. -/
def jsImul (a b : Int) : Int := asInt32 ((toUint32 a * toUint32 b) % 4294967296)

/-- JavaScript `a ^ b`: bitwise xor after ToInt32 conversion of both sides. -/
def jsXor (a b : Int) : Int := asInt32 (toUint32 a ^^^ toUint32 b)

/-! ## Calendar arithmetic backing the UTC `Date` getters

`civilFromDays` and `daysFromCivil` are the standard Gregorian
conversions between a day count from the epoch 1970-01-01 and a
year/month/day triple (month is 1-based, as produced by
`getUTCMonth() + 1` in the source). -/

/-- Convert days since 1970-01-01 to a Gregorian (year, month, day). -/
def civilFromDays (z0 : Int) : Int × Int × Int :=
  let z := z0 + 719468
  let era := Int.fdiv z 146097
  let doe := z - era * 146097
  let yoe := (doe - doe / 1460 + doe / 36524 - doe / 146096) / 365
  let y := yoe + era * 400
  let doy := doe - (365 * yoe + yoe / 4 - yoe / 100)
  let mp := (5 * doy + 2) / 153
  let d := doy - (153 * mp + 2) / 5 + 1
  let m := mp + (if mp < 10 then 3 else -9)
  (if m ≤ 2 then y + 1 else y, m, d)

/-- Convert a Gregorian (year, month, day) to days since 1970-01-01. -/
def daysFromCivil (y m d : Int) : Int :=
  let y' := y - (if m ≤ 2 then 1 else 0)
  let era := Int.fdiv y' 400
  let yoe := y' - era * 400
  let doy := (153 * (m + (if 2 < m then -3 else 9)) + 2) / 5 + d - 1
  let doe := yoe * 365 + yoe / 4 - yoe / 100 + doy
  era * 146097 + doe - 719468

/-- Decimal rendering of an integer, as JavaScript string interpolation
renders integral numbers. -/
def intToDecimal (i : Int) : List Char :=
  if i < 0 then '-' :: Nat.toDigits 10 (-i).toNat else Nat.toDigits 10 i.toNat

/-- `String(..).padStart(2, "0")`. -/
def padTwo (s : List Char) : List Char := List.replicate (2 - s.length) '0' ++ s

/-- `toUtcDayKey` from `dailyGameEngine.ts`: format the UTC year, month
and day of an instant (epoch milliseconds) as `YYYY-MM-DD` with
zero-padded month and day.  `getUTCFullYear/Month/Date` are modelled
through `civilFromDays` on `floor(ms / 86400000)`. -/
def toUtcDayKey (ms : Int) : List Char :=
  match civilFromDays (Int.fdiv ms 86400000) with
  | (year, month, day) =>
    intToDecimal year ++ ['-'] ++ padTwo (intToDecimal month) ++ ['-'] ++ padTwo (intToDecimal day)

/-! ## FNV-1a day seed (`daySeed`) -/

/-- The loop body of `daySeed`: `hash ^= charCode; hash = Math.imul(hash, 16777619)`,
carried out in JavaScript signed 32-bit arithmetic. -/
def daySeedLoop (h : Int) : List Char → Int
  | [] => h
  | c :: cs => daySeedLoop (jsImul (jsXor h (Int.ofNat c.toNat)) 16777619) cs

/-- `daySeed` from `dailyGameEngine.ts`: FNV-1a over the day key,
starting from 2166136261, finished with `hash >>> 0`. -/
def daySeed (dayKey : List Char) : Nat := toUint32 (daySeedLoop 2166136261 dayKey)

/-- The 32-bit FNV-1a hash exactly as the specification words it:
start at the offset basis 2166136261; for each character xor in the
character code, then multiply by 16777619 modulo 2^32. -/
def fnv1a32 (s : List Char) : Nat :=
  s.foldl (fun h c => ((h ^^^ c.toNat) * 16777619) % 4294967296) 2166136261

/-! ## Mulberry32 (`mulberry32`)

The JavaScript closure keeps `t` unwrapped after `t += 0x6D2B79F5`, but
every observation of `t` goes through ToInt32/ToUint32, so carrying the
wrapped state is observationally identical.  The three `v` lines of the
source are the three definitions below. -/

/-- `let v = Math.imul(t ^ (t >>> 15), t | 1)` as an unsigned residue. -/
def mulberry32V1 (t : Nat) : Nat := ((t ^^^ (t >>> 15)) * (t ||| 1)) % 4294967296

/-- `v ^= v + Math.imul(v ^ (v >>> 7), v | 61)` as an unsigned residue. -/
def mulberry32V2 (t : Nat) : Nat :=
  mulberry32V1 t ^^^
    ((mulberry32V1 t +
        ((mulberry32V1 t ^^^ (mulberry32V1 t >>> 7)) * (mulberry32V1 t ||| 61)) % 4294967296) %
      4294967296)

/-- `(v ^ (v >>> 14)) >>> 0`: the 32-bit output of one draw. -/
def mulberry32Output (t : Nat) : Nat := mulberry32V2 t ^^^ (mulberry32V2 t >>> 14)

/-- One step of the generator: increment the state by 0x6D2B79F5
(wrapping) and mix; returns (new state, 32-bit output). -/
def mulberry32Step (t : Nat) : Nat × Nat :=
  let t' := (t + 0x6d2b79f5) % 4294967296
  (t', mulberry32Output t')

/-- The first draw of `mulberry32(seed)`, as the 32-bit numerator of the
returned float `out / 4294967296` (the seed is first wrapped by `>>> 0`). -/
def mulberry32First (seed : Nat) : Nat := (mulberry32Step (seed % 4294967296)).2

/-- The first float drawn by `mulberry32(seed)`, as an exact rational. -/
def mulberryDraw (seed : Nat) : ℚ := (mulberry32First seed : ℚ) / 4294967296

/-! ## Text normalization (`normalizeText`) -/

/-- Characters kept by the `[^a-z0-9]` removal (after lower-casing). -/
def isLowerAlnum (c : Char) : Bool :=
  ('a' ≤ c && c ≤ 'z') || ('0' ≤ c && c ≤ '9')

/-- Whitespace removed by `String.prototype.trim`. -/
def isJsSpace (c : Char) : Bool :=
  c == ' ' || c == '\t' || c == '\n' || c == '\r' || c == '\x0b' || c == '\x0c'

/-- `String.prototype.trim`: drop whitespace from both ends. -/
def jsTrim (s : List Char) : List Char :=
  ((s.dropWhile isJsSpace).reverse.dropWhile isJsSpace).reverse

/-- `normalizeText` from `dailyGameEngine.ts`:
`value.toLowerCase().replace(/[^a-z0-9]/g, "").trim()`.
`toLowerCase` is modelled per character by `Char.toLower` (identical on
the ASCII range the regex keeps). -/
def normalizeText (value : List Char) : List Char :=
  jsTrim ((value.map Char.toLower).filter isLowerAlnum)

/-! ## Data model (`src/types/index.ts`)

The `aiAnalysis` field of `CommunityClue` (floating-point sentiment
scores produced by an external AI hook) is not consumed by any engine
operation and is omitted from the model. -/

/-- `Puzzle` from `src/types/index.ts`. -/
structure Puzzle where
  id : List Char
  answer : List Char
  category : List Char
  title : List Char
  hints : List (List Char)
  difficulty : ℚ
  subredditTags : List (List Char)
  createdAt : Int
  author : Option (List Char) := none
  aiGenerated : Option Bool := none
deriving DecidableEq, Inhabited

/-- `CommunityClue` from `src/types/index.ts`. -/
structure CommunityClue where
  id : List Char
  text : List Char
  author : List Char
  upvotes : Int
  modBoost : Int
  createdAt : Int
  approved : Bool
deriving DecidableEq, Inhabited

/-- `DailyResult` from `dailyGameEngine.ts`. -/
structure DailyResult where
  dayKey : List Char
  seed : Nat
  index : Nat
  puzzle : Puzzle
deriving DecidableEq

/-- `GuessEvaluation` from `dailyGameEngine.ts`. -/
structure GuessEvaluation where
  normalizedGuess : List Char
  normalizedAnswer : List Char
  correct : Bool
deriving DecidableEq

/-- `ScoreParams` from `dailyGameEngine.ts`. -/
structure ScoreParams where
  correct : Bool
  hintsUsed : Int
  timeSeconds : Int
  streakDays : Int
deriving DecidableEq

/-- `CommunityClueOptions` from `dailyGameEngine.ts`; both fields are
optional in the source and default to absent, which the validator
turns into empty lists. -/
structure CommunityClueOptions where
  forbiddenWords : List (List Char) := []
  existingClues : List (List Char) := []
deriving DecidableEq

/-- `ValidationResult` from `dailyGameEngine.ts`. -/
structure ValidationResult where
  valid : Bool
  reason : List Char
deriving DecidableEq

/-! ## Deterministic daily selection (`pickDailyPuzzle`) -/

/-- `pickDailyPuzzle` from `dailyGameEngine.ts`.  The bank argument is a
typed list, so the `!Array.isArray(bank)` guard of the source is
vacuous; the empty-bank guard throws, modelled by `Except.error`.
`Math.floor(rng() * bank.length)` is `out * bank.length / 2^32` in
exact integer arithmetic (the float product is exact for these
magnitudes), and `bank[index]` is in-bounds indexing. -/
def pickDailyPuzzle (ms : Int) (bank : List Puzzle) : Except (List Char) DailyResult :=
  if bank.length = 0 then
    Except.error "Puzzle bank cannot be empty.".toList
  else
    let dayKey := toUtcDayKey ms
    let seed := daySeed dayKey
    let index := mulberry32First seed * bank.length / 4294967296
    Except.ok { dayKey := dayKey, seed := seed, index := index, puzzle := bank.getD index default }

/-! ## Guess evaluation (`evaluateGuess`) -/

/-- `evaluateGuess` from `dailyGameEngine.ts`. -/
def evaluateGuess (guess answer : List Char) : GuessEvaluation :=
  let normalizedGuess := normalizeText guess
  let normalizedAnswer := normalizeText answer
  { normalizedGuess := normalizedGuess
    normalizedAnswer := normalizedAnswer
    correct := decide (0 < normalizedGuess.length) && decide (normalizedGuess = normalizedAnswer) }

/-! ## Scoring (`computeScore`) -/

/-- `computeScore` from `dailyGameEngine.ts`.  All quantities are
integers and non-negative where divided, so `Math.floor(x / k)` is
integer division. -/
def computeScore (p : ScoreParams) : Int :=
  if !p.correct then 0
  else
    let baseScore : Int := 100
    let hintPenalty := max 0 (p.hintsUsed - 1) * 15
    let timePenalty := min 35 (max 0 p.timeSeconds / 6)
    let streakBonus := min 25 (max 0 p.streakDays / 2)
    max 5 (baseScore - hintPenalty - timePenalty + streakBonus)

/-! ## Community clue validation (`validateCommunityClue`) -/

/-- `BLOCKED_TERMS` from `dailyGameEngine.ts`. -/
def BLOCKED_TERMS : List (List Char) :=
  ["http://".toList, "https://".toList, "discord.gg".toList, "t.me/".toList]

/-- `String.prototype.includes`: substring containment. -/
def hasSub (needle : List Char) : List Char → Bool
  | [] => needle.isEmpty
  | c :: rest => needle.isPrefixOf (c :: rest) || hasSub needle rest

/-- `validateCommunityClue` from `dailyGameEngine.ts`.  The
`String(text || "")` coercion and the two `Array.isArray` guards are
vacuous on the typed model. -/
def validateCommunityClue (text : List Char) (options : CommunityClueOptions := {}) :
    ValidationResult :=
  let raw := jsTrim text
  if raw.length < 8 then
    { valid := false, reason := "Clue must be at least 8 characters.".toList }
  else if 180 < raw.length then
    { valid := false, reason := "Clue must be 180 characters or fewer.".toList }
  else
    let lower := raw.map Char.toLower
    if BLOCKED_TERMS.any (fun term => hasSub term lower) then
      { valid := false, reason := "Links are not allowed in clues.".toList }
    else
      let normalizedRaw := normalizeText raw
      if options.forbiddenWords.any (fun forbidden =>
          !(normalizeText forbidden).isEmpty && hasSub (normalizeText forbidden) normalizedRaw) then
        { valid := false, reason := "Clue cannot contain the answer.".toList }
      else if options.existingClues.any (fun item => decide (normalizeText item = normalizedRaw)) then
        { valid := false, reason := "This clue already exists for today.".toList }
      else
        { valid := true, reason := "ok".toList }

/-! ## Community clue ranking (`rankCommunityClues`) -/

/-- The combined ranking score `(upvotes || 0) + (modBoost || 0) * 3`
of the sort comparator (the `|| 0` fallbacks are vacuous on the typed
model). -/
def clueCombined (c : CommunityClue) : Int := c.upvotes + c.modBoost * 3

/-- The ordering realised by the comparator
`(a, b) => scoreB - scoreA, ties by dateB - dateA`: `a` may precede `b`
iff the comparator is `≤ 0` on `(a, b)`. -/
def rankRel (a b : CommunityClue) : Prop :=
  clueCombined b < clueCombined a ∨
    (clueCombined a = clueCombined b ∧ b.createdAt ≤ a.createdAt)

instance : DecidableRel rankRel := fun a b =>
  inferInstanceAs (Decidable (clueCombined b < clueCombined a ∨ _ ∧ _))

instance : IsTotal CommunityClue rankRel := by
  constructor
  intro a b
  unfold rankRel
  omega

instance : IsTrans CommunityClue rankRel := by
  constructor
  intro a b c hab hbc
  unfold rankRel at *
  omega

/-- `rankCommunityClues` from `dailyGameEngine.ts`.  The
`Array.isArray` and `typeof item.text === "string"` guards are vacuous
on the typed model; `[...clues].sort` with a consistent comparator is
the stable sort by `rankRel`, modelled by insertion sort (which is
stable). Note: the re-validation filter calls `validateCommunityClue`
with no options, exactly as the source does. -/
def rankCommunityClues (clues : List CommunityClue) (limit : Nat := 5) : List CommunityClue :=
  (List.insertionSort rankRel
      (clues.filter (fun item => (validateCommunityClue item.text).valid))).take limit

/-! ## Session state manager (`useGameStore.ts`)

The React hook owns three pieces of ambient state: the current
`DailyGameState`, the error banner (`setError`), and `localStorage`
(streak record, stored clues).  The model passes this state explicitly:
`submitGuess` takes the current game, the current instant (epoch
milliseconds, standing for both `Date.now()` and `new Date()`), and the
streak record, and returns the boolean result together with the new
game state, the `setError` effect (if any) and the new streak record. -/

/-- `Guess` from `src/types/index.ts` (timestamps as epoch milliseconds). -/
structure Guess where
  text : List Char
  timestamp : Int
  hintsUsed : Int
  correct : Bool
  score : Option Int := none
deriving DecidableEq

/-- `PlayerDailyState` from `src/types/index.ts`. -/
structure PlayerDailyState where
  guesses : List Guess
  hintsUnlocked : Int
  score : Int
  completed : Bool
  timeStarted : Int
  timeCompleted : Option Int := none
  streak : Int
deriving DecidableEq

/-- `DailyGameState` from `src/types/index.ts` (the optional
`leaderboard`, never read by the store, is omitted). -/
structure DailyGameState where
  dayKey : List Char
  puzzle : Puzzle
  playerState : PlayerDailyState
  communityClues : List CommunityClue
  timestamp : Int
deriving DecidableEq

/-- The streak record persisted under `threadpulse.streak`
(`getStreakState` returns `lastSolvedDay = null, streakDays = 0` when
the key is absent or unreadable, which `none`/the stored value model). -/
structure StreakRecord where
  lastSolvedDay : Option (List Char) := none
  streakDays : Int := 0
deriving DecidableEq

/-- `MAX_GUESSES` from `useGameStore.ts`. -/
def MAX_GUESSES : Nat := 6

/-- Split a character list at every occurrence of a separator. -/
def splitOnChar (sep : Char) : List Char → List (List Char)
  | [] => [[]]
  | c :: cs =>
    match splitOnChar sep cs with
    | [] => [[c]]
    | h :: t => if c = sep then [] :: h :: t else (c :: h) :: t

/-- Decimal digits to a number. -/
def decDigitsToNat (s : List Char) : Nat :=
  s.foldl (fun acc c => acc * 10 + (c.toNat - 48)) 0

/-- Parsing of `new Date(dayKey + "T00:00:00Z")` for the well-formed
`YYYY-MM-DD` keys (non-negative year) produced by `toUtcDayKey`; a
malformed key yields an Invalid Date in JavaScript, unmodelled here
(fixed fallback). -/
def parseDayKey (s : List Char) : Int × Int × Int :=
  match splitOnChar '-' s with
  | [ys, ms', ds] => ((decDigitsToNat ys : Int), (decDigitsToNat ms' : Int), (decDigitsToNat ds : Int))
  | _ => (0, 1, 1)

/-- `shiftUtcDay` from `useGameStore.ts`: parse the key, shift the UTC
day-of-month (`setUTCDate` normalises through the time value, i.e.
adds `days` days), and re-format with `toUtcDayKey`. -/
def shiftUtcDay (dayKey : List Char) (days : Int) : List Char :=
  match parseDayKey dayKey with
  | (y, m, d) => toUtcDayKey ((daysFromCivil y m d + days) * 86400000)

/-- `updateStreak` from `useGameStore.ts`, with `localStorage` passed
explicitly (read by `getStreakState`, written by `setItem`; a write
failure is swallowed in the source and does not affect the returned
count).  Returns the stored record and the returned streak count. -/
def updateStreak (store : StreakRecord) (dayKey : List Char) : StreakRecord × Int :=
  if store.lastSolvedDay = some dayKey then (store, store.streakDays)
  else
    let yesterday := shiftUtcDay dayKey (-1)
    let next : StreakRecord :=
      { lastSolvedDay := some dayKey
        streakDays := if store.lastSolvedDay = some yesterday then store.streakDays + 1 else 1 }
    (next, next.streakDays)

/-- The observable outcome of one `submitGuess` call: the returned
boolean, the game state afterwards, the `setError` effect
(`none` = `setError` not called; `some none` = `setError(null)`;
`some (some msg)` = `setError(msg)`), and the streak record afterwards. -/
structure SubmitOutcome where
  result : Bool
  game : Option DailyGameState
  errorSet : Option (Option (List Char))
  store : StreakRecord
deriving DecidableEq

/-- `submitGuess` from `useGameStore.ts`.  The inline
`guess.toLowerCase().replace(/[^a-z0-9]/g, "").trim()` is exactly the
body of `normalizeText`.  `Math.max(1, Math.round((Date.now() -
startedAt.getTime()) / 1000))` is `max 1 ⌊(Δms + 500) / 1000⌋`; the
`Number.isNaN` guard is vacuous since `timeStarted` is a valid instant
in the model. -/
def submitGuess (currentGame : Option DailyGameState) (guess : List Char) (nowMs : Int)
    (store : StreakRecord) : SubmitOutcome :=
  match currentGame with
  | none => { result := false, game := none, errorSet := none, store := store }
  | some game =>
    if game.playerState.completed then
      { result := false, game := some game, errorSet := none, store := store }
    else if MAX_GUESSES ≤ game.playerState.guesses.length then
      { result := false, game := some game
        errorSet := some (some "No guesses remaining for today.".toList), store := store }
    else
      let normalizedGuess := normalizeText guess
      if game.playerState.guesses.any (fun item => decide (normalizeText item.text = normalizedGuess)) then
        { result := false, game := some game
          errorSet := some (some "You already tried that guess.".toList), store := store }
      else
        let evaluation := evaluateGuess guess game.puzzle.answer
        let timeSeconds := max 1 (Int.fdiv (nowMs - game.playerState.timeStarted + 500) 1000)
        let nextScore := computeScore
          { correct := evaluation.correct, hintsUsed := game.playerState.hintsUnlocked
            timeSeconds := timeSeconds, streakDays := game.playerState.streak }
        let newGuess : Guess :=
          { text := guess, timestamp := nowMs
            hintsUsed := game.playerState.hintsUnlocked, correct := evaluation.correct }
        let streakUpdate :=
          if evaluation.correct then updateStreak store game.dayKey
          else (store, game.playerState.streak)
        let nextGame : DailyGameState :=
          { game with playerState :=
            { game.playerState with
              guesses := game.playerState.guesses ++ [newGuess]
              completed := evaluation.correct
              score := nextScore
              streak := streakUpdate.2
              timeCompleted :=
                if evaluation.correct then some nowMs else game.playerState.timeCompleted } }
        let message : Option (List Char) :=
          if evaluation.correct then none
          else if MAX_GUESSES ≤ game.playerState.guesses.length + 1 then
            some "Round complete. Try again on the next daily puzzle.".toList
          else
            some ("Not correct yet. ".toList ++
              Nat.toDigits 10 (MAX_GUESSES - (game.playerState.guesses.length + 1)) ++
              " guesses left.".toList)
        { result := evaluation.correct, game := some nextGame
          errorSet := some message, store := streakUpdate.1 }

/-! ## Specification-side restatement of the validator cascade

Named predicates for the five validator rules, used to state that
`validateCommunityClue` applies them in the specified order with the
first failure winning. -/

/-- Rule 1: trimmed length below 8. -/
def clueTooShort (text : List Char) : Bool := decide ((jsTrim text).length < 8)

/-- Rule 2: trimmed length above 180. -/
def clueTooLong (text : List Char) : Bool := decide (180 < (jsTrim text).length)

/-- Rule 3: the lowercased text contains a blocklisted link substring. -/
def clueHasBlockedLink (text : List Char) : Bool :=
  BLOCKED_TERMS.any (fun term => hasSub term ((jsTrim text).map Char.toLower))

/-- Rule 4: the normalized text contains the normalized form of some
forbidden word (empty normalized forms are skipped). -/
def clueContainsForbidden (text : List Char) (forbiddenWords : List (List Char)) : Bool :=
  forbiddenWords.any (fun w =>
    !(normalizeText w).isEmpty && hasSub (normalizeText w) (normalizeText (jsTrim text)))

/-- Rule 5: the normalized text equals the normalized form of some
existing clue. -/
def clueIsDuplicate (text : List Char) (existingClues : List (List Char)) : Bool :=
  existingClues.any (fun item => decide (normalizeText item = normalizeText (jsTrim text)))

/-- The five rules in the specified order, first failure winning. -/
def specClueVerdict (text : List Char) (options : CommunityClueOptions) : ValidationResult :=
  if clueTooShort text then
    { valid := false, reason := "Clue must be at least 8 characters.".toList }
  else if clueTooLong text then
    { valid := false, reason := "Clue must be 180 characters or fewer.".toList }
  else if clueHasBlockedLink text then
    { valid := false, reason := "Links are not allowed in clues.".toList }
  else if clueContainsForbidden text options.forbiddenWords then
    { valid := false, reason := "Clue cannot contain the answer.".toList }
  else if clueIsDuplicate text options.existingClues then
    { valid := false, reason := "This clue already exists for today.".toList }
  else
    { valid := true, reason := "ok".toList }

/-! ## Concrete sample inputs used to instantiate the theorems -/

/-- A sample puzzle in the shape of the entries of `puzzleBank.ts`. -/
def samplePuzzle : Puzzle :=
  { id := "p1".toList
    answer := "karma".toList
    category := "Reddit Culture".toList
    title := "Sample".toList
    hints := ["Internet points".toList]
    difficulty := 1
    subredditTags := ["r/all".toList]
    createdAt := 0 }

/-- An empty streak record (nothing persisted yet). -/
def sampleStore : StreakRecord := {}

/-- A game whose day is already completed. -/
def completedGame : DailyGameState :=
  { dayKey := "2026-02-04".toList
    puzzle := samplePuzzle
    playerState :=
      { guesses := [], hintsUnlocked := 1, score := 100, completed := true
        timeStarted := 0, streak := 1 }
    communityClues := []
    timestamp := 0 }

/-- A game with all six guesses used and the day not completed. -/
def exhaustedGame : DailyGameState :=
  { dayKey := "2026-02-04".toList
    puzzle := samplePuzzle
    playerState :=
      { guesses :=
          [ { text := "g1".toList, timestamp := 0, hintsUsed := 1, correct := false }
          , { text := "g2".toList, timestamp := 0, hintsUsed := 1, correct := false }
          , { text := "g3".toList, timestamp := 0, hintsUsed := 1, correct := false }
          , { text := "g4".toList, timestamp := 0, hintsUsed := 1, correct := false }
          , { text := "g5".toList, timestamp := 0, hintsUsed := 1, correct := false }
          , { text := "g6".toList, timestamp := 0, hintsUsed := 1, correct := false } ]
        hintsUnlocked := 1, score := 0, completed := false
        timeStarted := 0, streak := 0 }
    communityClues := []
    timestamp := 0 }

/-- A game in progress whose single prior guess normalizes to `karma`. -/
def dupGame : DailyGameState :=
  { dayKey := "2026-02-04".toList
    puzzle := samplePuzzle
    playerState :=
      { guesses :=
          [ { text := "Karma!".toList, timestamp := 0, hintsUsed := 1, correct := false } ]
        hintsUnlocked := 1, score := 0, completed := false
        timeStarted := 0, streak := 0 }
    communityClues := []
    timestamp := 0 }

/-- A well-formed community clue whose text contains the day's answer
`karma`. -/
def answerClue : CommunityClue :=
  { id := "c1".toList
    text := "the answer karma is hidden here".toList
    author := "u1".toList
    upvotes := 3
    modBoost := 0
    createdAt := 10
    approved := true }

/-- A clue whose text normalizes to the same string as `answerClue`. -/
def answerClueDup : CommunityClue :=
  { id := "c2".toList
    text := "The answer KARMA is hidden here!".toList
    author := "u2".toList
    upvotes := 1
    modBoost := 0
    createdAt := 20
    approved := true }

/-! ## Helper lemmas: 32-bit arithmetic -/

theorem toUint32_lt (i : Int) : toUint32 i < 4294967296 := by
  unfold toUint32
  omega

theorem toUint32_asInt32 {n : Nat} (h : n < 4294967296) : toUint32 (asInt32 n) = n := by
  unfold toUint32 asInt32
  split <;> omega

theorem char_toNat_lt (c : Char) : c.toNat < 4294967296 := by
  have h := c.val.toNat_lt
  simp only [Char.toNat]
  omega

theorem toUint32_ofNat {n : Nat} (h : n < 4294967296) : toUint32 (Int.ofNat n) = n := by
  unfold toUint32
  simp only [Int.ofNat_eq_coe]
  omega

theorem u32_xor_lt {x y : Nat} (hx : x < 4294967296) (hy : y < 4294967296) :
    x ^^^ y < 4294967296 := by
  have h : (4294967296 : Nat) = 2 ^ 32 := by norm_num
  rw [h] at hx hy ⊢
  exact Nat.xor_lt_two_pow hx hy

theorem mod_u32_lt (n : Nat) : n % 4294967296 < 4294967296 :=
  Nat.mod_lt _ (by norm_num)

theorem shiftRight_lt_u32 {v : Nat} (h : v < 4294967296) (k : Nat) : v >>> k < 4294967296 := by
  rw [Nat.shiftRight_eq_div_pow]
  exact Nat.lt_of_le_of_lt (Nat.div_le_self _ _) h

/-! ## Helper lemmas: FNV-1a -/

theorem daySeed_step_eq (h : Int) (c : Char) :
    toUint32 (jsImul (jsXor h (Int.ofNat c.toNat)) 16777619) =
      ((toUint32 h ^^^ c.toNat) * 16777619) % 4294967296 := by
  have hxor : toUint32 (jsXor h (Int.ofNat c.toNat)) = toUint32 h ^^^ c.toNat := by
    unfold jsXor
    rw [toUint32_ofNat (char_toNat_lt c)]
    exact toUint32_asInt32 (u32_xor_lt (toUint32_lt h) (char_toNat_lt c))
  have h19 : toUint32 16777619 = 16777619 := by decide
  unfold jsImul
  rw [toUint32_asInt32 (mod_u32_lt _), hxor, h19]

theorem daySeedLoop_spec (cs : List Char) : ∀ h : Int,
    toUint32 (daySeedLoop h cs) =
      cs.foldl (fun h c => ((h ^^^ c.toNat) * 16777619) % 4294967296) (toUint32 h) := by
  induction cs with
  | nil => intro h; rfl
  | cons c cs ih =>
    intro h
    rw [daySeedLoop, List.foldl_cons, ih, daySeed_step_eq]

/-! ## Helper lemmas: Mulberry32 output bounds -/

theorem mulberry32V1_lt (t : Nat) : mulberry32V1 t < 4294967296 :=
  mod_u32_lt _

theorem mulberry32V2_lt (t : Nat) : mulberry32V2 t < 4294967296 :=
  u32_xor_lt (mulberry32V1_lt t) (mod_u32_lt _)

theorem mulberry32Output_lt (t : Nat) : mulberry32Output t < 4294967296 :=
  u32_xor_lt (mulberry32V2_lt t) (shiftRight_lt_u32 (mulberry32V2_lt t) 14)

theorem mulberry32First_lt (seed : Nat) : mulberry32First seed < 4294967296 := by
  unfold mulberry32First mulberry32Step
  exact mulberry32Output_lt _

/-! ## Helper lemmas: normalization -/

theorem not_isJsSpace_of_isLowerAlnum {c : Char} (h : isLowerAlnum c = true) :
    isJsSpace c = false := by
  cases hc : isJsSpace c
  · rfl
  · exfalso
    unfold isJsSpace at hc
    simp only [Bool.or_eq_true, beq_iff_eq] at hc
    rcases hc with ((((rfl | rfl) | rfl) | rfl) | rfl) | rfl <;> exact absurd h (by decide)

theorem dropWhile_of_forall_not {p : Char → Bool} {s : List Char}
    (h : ∀ c ∈ s, p c = false) : s.dropWhile p = s := by
  cases s with
  | nil => rfl
  | cons a l => simp [List.dropWhile_cons, h a (List.mem_cons_self a l)]

theorem jsTrim_of_forall_not {s : List Char} (h : ∀ c ∈ s, isJsSpace c = false) :
    jsTrim s = s := by
  unfold jsTrim
  rw [dropWhile_of_forall_not h,
    dropWhile_of_forall_not (fun c hc => h c (List.mem_reverse.mp hc)),
    List.reverse_reverse]

theorem normalizeText_eq_filter (x : List Char) :
    normalizeText x = (x.map Char.toLower).filter isLowerAlnum := by
  unfold normalizeText
  exact jsTrim_of_forall_not fun c hc =>
    not_isJsSpace_of_isLowerAlnum (List.of_mem_filter hc)

/-! ## Claim theorems -/

/-- C3: for every day-key string, `daySeed` computes exactly the 32-bit
FNV-1a hash: start the accumulator at 2166136261; for each character in
order, xor in the character code and multiply by 16777619 with 32-bit
wraparound (modulo 2^32) semantics; return the final accumulator as an
unsigned 32-bit integer. -/
theorem daySeed_eq_fnv1a32 (s : List Char) : daySeed s = fnv1a32 s := by
  unfold daySeed fnv1a32
  rw [daySeedLoop_spec]
  congr 1

/-- C1: daily selection is deterministic.  For every bank and any two
instants whose UTC day keys coincide, `pickDailyPuzzle` returns the
same result on both calls (hence the same seed, index and puzzle), and
on a non-empty bank that shared result is a success. -/
theorem pickDailyPuzzle_deterministic (ms₁ ms₂ : Int) (bank : List Puzzle)
    (hbank : bank ≠ []) (hkey : toUtcDayKey ms₁ = toUtcDayKey ms₂) :
    pickDailyPuzzle ms₁ bank = pickDailyPuzzle ms₂ bank ∧
      ∃ r : DailyResult, pickDailyPuzzle ms₁ bank = Except.ok r := by
  have hlen : bank.length ≠ 0 := by simpa [List.length_eq_zero] using hbank
  constructor
  · unfold pickDailyPuzzle
    rw [hkey]
  · unfold pickDailyPuzzle
    rw [if_neg hlen]
    exact ⟨_, rfl⟩

/-- Witness for C1 at two instants one hour apart inside 1970-01-01 and
a one-element bank. -/
theorem pickDailyPuzzle_deterministic_witness :
    pickDailyPuzzle 0 [samplePuzzle] = pickDailyPuzzle 3600000 [samplePuzzle] ∧
      ∃ r : DailyResult, pickDailyPuzzle 0 [samplePuzzle] = Except.ok r :=
  pickDailyPuzzle_deterministic 0 3600000 [samplePuzzle]
    (List.cons_ne_nil _ _) (by decide)

/-- C2: `pickDailyPuzzle` fails with the empty-bank error iff the bank
is empty; on every non-empty bank it succeeds, the first Mulberry32
draw for the selected seed lies in `[0, 1)`, the index is below the
bank length, and the returned puzzle is `bank[index]`, an element of
the bank. -/
theorem pickDailyPuzzle_empty_iff (ms : Int) (bank : List Puzzle) :
    (pickDailyPuzzle ms bank = Except.error "Puzzle bank cannot be empty.".toList ↔ bank = []) ∧
    (bank ≠ [] → ∃ r : DailyResult,
      pickDailyPuzzle ms bank = Except.ok r ∧
      0 ≤ mulberryDraw r.seed ∧ mulberryDraw r.seed < 1 ∧
      r.index < bank.length ∧ r.puzzle = bank.getD r.index default ∧ r.puzzle ∈ bank) := by
  constructor
  · constructor
    · intro h
      by_contra hne
      have hlen : bank.length ≠ 0 := by simpa [List.length_eq_zero] using hne
      unfold pickDailyPuzzle at h
      rw [if_neg hlen] at h
      exact Except.noConfusion h
    · intro h
      subst h
      rfl
  · intro hne
    have hlen : bank.length ≠ 0 := by simpa [List.length_eq_zero] using hne
    have hpos : 0 < bank.length := Nat.pos_of_ne_zero hlen
    unfold pickDailyPuzzle
    rw [if_neg hlen]
    have hidx : mulberry32First (daySeed (toUtcDayKey ms)) * bank.length / 4294967296 <
        bank.length :=
      Nat.div_lt_of_lt_mul ((Nat.mul_lt_mul_right hpos).mpr (mulberry32First_lt _))
    refine ⟨_, rfl, ?_, ?_, hidx, rfl, ?_⟩
    · unfold mulberryDraw
      positivity
    · unfold mulberryDraw
      rw [div_lt_one (by norm_num)]
      exact_mod_cast mulberry32First_lt _
    · show bank.getD _ default ∈ bank
      rw [List.getD_eq_getElem bank default hidx]
      exact List.getElem_mem hidx

/-- Witness for C2 at the epoch instant and a one-element bank. -/
theorem pickDailyPuzzle_empty_iff_witness :
    ∃ r : DailyResult,
      pickDailyPuzzle 0 [samplePuzzle] = Except.ok r ∧
      0 ≤ mulberryDraw r.seed ∧ mulberryDraw r.seed < 1 ∧
      r.index < [samplePuzzle].length ∧
      r.puzzle = [samplePuzzle].getD r.index default ∧ r.puzzle ∈ [samplePuzzle] :=
  (pickDailyPuzzle_empty_iff 0 [samplePuzzle]).2 (List.cons_ne_nil _ _)

/-- C4: `computeScore` returns 0 for an incorrect result and otherwise
exactly `max(5, 100 - max(0, hintsUsed - 1) * 15 -
min(35, ⌊max(0, timeSeconds) / 6⌋) + min(25, ⌊max(0, streakDays) / 2⌋))`
in exact integer floor arithmetic; consequently the result always lies
in `{0} ∪ [5, 125]`. -/
theorem computeScore_spec (c : Bool) (h t s : Int) :
    computeScore { correct := c, hintsUsed := h, timeSeconds := t, streakDays := s } =
      (if c then
        max 5 (100 - max 0 (h - 1) * 15 - min 35 (max 0 t / 6) + min 25 (max 0 s / 2))
      else 0) ∧
    (computeScore { correct := c, hintsUsed := h, timeSeconds := t, streakDays := s } = 0 ∨
      (5 ≤ computeScore { correct := c, hintsUsed := h, timeSeconds := t, streakDays := s } ∧
        computeScore { correct := c, hintsUsed := h, timeSeconds := t, streakDays := s } ≤ 125)) := by
  constructor
  · unfold computeScore
    cases c <;> simp
  · unfold computeScore
    cases c
    · simp
    · simp
      omega

/-- C5 counterexample: on the spec's own test vector
`(correct, hintsUsed=3, timeSeconds=1000, streakDays=0)` the score is
not 5. -/
theorem computeScore_specVector_ne_five :
    computeScore { correct := true, hintsUsed := 3, timeSeconds := 1000, streakDays := 0 } ≠ 5 := by
  decide

/-- C5 (amended): `computeScore` applied to `correct = true`,
`hintsUsed = 3`, `timeSeconds = 1000`, `streakDays = 0` returns exactly
35 (`= max(5, 100 - 30 - 35 + 0)`); the floor clamp of 5 is not
engaged. -/
theorem computeScore_specVector :
    computeScore { correct := true, hintsUsed := 3, timeSeconds := 1000, streakDays := 0 } = 35 := by
  decide

/-- C6: `evaluateGuess` normalizes guess and answer by lower-casing and
keeping only ASCII lowercase letters and digits (the trailing trim is a
no-op), and is correct exactly when the two normalized strings are
equal and the normalized guess is non-empty (so an empty or
all-punctuation guess is never correct). -/
theorem evaluateGuess_spec (g a : List Char) :
    (evaluateGuess g a).normalizedGuess = (g.map Char.toLower).filter isLowerAlnum ∧
    (evaluateGuess g a).normalizedAnswer = (a.map Char.toLower).filter isLowerAlnum ∧
    ((evaluateGuess g a).correct = true ↔
      (normalizeText g = normalizeText a ∧ normalizeText g ≠ [])) := by
  refine ⟨normalizeText_eq_filter g, normalizeText_eq_filter a, ?_⟩
  show (decide (0 < (normalizeText g).length) && decide (normalizeText g = normalizeText a)) =
      true ↔ _
  simp only [Bool.and_eq_true, decide_eq_true_eq, List.length_pos]
  exact and_comm

/-- C7: `validateCommunityClue` applies the five rules in the fixed
order short/long/link/forbidden/duplicate with the first failure
winning, so a clue violating several rules is reported with the reason
of the earliest violated rule. -/
theorem validateCommunityClue_spec (text : List Char) (options : CommunityClueOptions) :
    validateCommunityClue text options = specClueVerdict text options := by
  unfold validateCommunityClue specClueVerdict clueTooShort clueTooLong clueHasBlockedLink
    clueContainsForbidden clueIsDuplicate
  simp only [decide_eq_true_eq]

/-- C8: `rankCommunityClues` keeps exactly the clues that re-pass the
validator (with default options), sorts them descending by
`upvotes + modBoost * 3` with ties on that combined score broken by the
most recent `createdAt` first, and truncates to at most `limit`
elements; with `limit` at least the number of surviving clues the
output is a permutation of them, and as a pure function the ordering is
deterministic in the input. -/
theorem rankCommunityClues_spec (clues : List CommunityClue) (limit : Nat) :
    (rankCommunityClues clues limit).length =
      min limit ((clues.filter fun item => (validateCommunityClue item.text).valid).length) ∧
    ((rankCommunityClues clues limit).all fun c =>
      decide (c ∈ clues) && (validateCommunityClue c.text).valid) = true ∧
    (rankCommunityClues clues limit).Pairwise rankRel ∧
    (rankCommunityClues clues
        ((clues.filter fun item => (validateCommunityClue item.text).valid).length)).Perm
      (clues.filter fun item => (validateCommunityClue item.text).valid) := by
  refine ⟨?_, ?_, ?_, ?_⟩
  · unfold rankCommunityClues
    rw [List.length_take, (List.perm_insertionSort rankRel _).length_eq]
  · rw [List.all_eq_true]
    intro c hc
    have h1 : c ∈ List.insertionSort rankRel
        (clues.filter fun item => (validateCommunityClue item.text).valid) :=
      List.take_subset _ _ hc
    have h2 := (List.perm_insertionSort rankRel _).mem_iff.mp h1
    have h3 := List.mem_filter.mp h2
    simp [h3.1, h3.2]
  · unfold rankCommunityClues
    exact List.Pairwise.take (List.sorted_insertionSort rankRel _)
  · unfold rankCommunityClues
    rw [← (List.perm_insertionSort rankRel
      (clues.filter fun item => (validateCommunityClue item.text).valid)).length_eq]
    rw [List.take_length]
    exact List.perm_insertionSort rankRel _

/-- C9 counterexample: on a game whose day is already completed,
`submitGuess` rejects the guess (returns `false`, leaves the state and
streak record unchanged) but does NOT call `setError`, so no
user-visible error explains the rejection. -/
theorem submitGuess_completed_silent :
    (submitGuess (some completedGame) "hello".toList 0 sampleStore).result = false ∧
    (submitGuess (some completedGame) "hello".toList 0 sampleStore).game = some completedGame ∧
    (submitGuess (some completedGame) "hello".toList 0 sampleStore).errorSet = none ∧
    (submitGuess (some completedGame) "hello".toList 0 sampleStore).store = sampleStore := by
  decide

/-- C9 (amended): if the day is already completed, or 6 guesses have
been used, or the normalized guess duplicates a prior guess,
`submitGuess` returns `false` and leaves the game state and streak
record unchanged; in the exhausted-guesses and duplicate cases it sets
the specific user-visible error message, but in the already-completed
case it rejects silently without setting any error. -/
theorem submitGuess_rejections (game : DailyGameState) (guess : List Char) (nowMs : Int)
    (store : StreakRecord) :
    (game.playerState.completed = true →
      submitGuess (some game) guess nowMs store =
        { result := false, game := some game, errorSet := none, store := store }) ∧
    (game.playerState.completed = false → MAX_GUESSES ≤ game.playerState.guesses.length →
      submitGuess (some game) guess nowMs store =
        { result := false, game := some game
          errorSet := some (some "No guesses remaining for today.".toList), store := store }) ∧
    (game.playerState.completed = false → game.playerState.guesses.length < MAX_GUESSES →
      game.playerState.guesses.any
        (fun item => decide (normalizeText item.text = normalizeText guess)) = true →
      submitGuess (some game) guess nowMs store =
        { result := false, game := some game
          errorSet := some (some "You already tried that guess.".toList), store := store }) := by
  refine ⟨?_, ?_, ?_⟩
  · intro hc
    unfold submitGuess
    simp [hc]
  · intro hc hlen
    unfold submitGuess
    simp [hc, hlen]
  · intro hc hlt hdup
    have hnot : ¬ MAX_GUESSES ≤ game.playerState.guesses.length := Nat.not_le.mpr hlt
    unfold submitGuess
    simp [hc, hnot, hdup]

/-- Witness for C9 (amended) on three concrete games: one completed,
one with six used guesses, one with a duplicate prior guess. -/
theorem submitGuess_rejections_witness :
    (submitGuess (some completedGame) "x".toList 5 sampleStore =
      { result := false, game := some completedGame, errorSet := none, store := sampleStore }) ∧
    (submitGuess (some exhaustedGame) "x".toList 5 sampleStore =
      { result := false, game := some exhaustedGame
        errorSet := some (some "No guesses remaining for today.".toList)
        store := sampleStore }) ∧
    (submitGuess (some dupGame) "karma".toList 5 sampleStore =
      { result := false, game := some dupGame
        errorSet := some (some "You already tried that guess.".toList)
        store := sampleStore }) :=
  ⟨(submitGuess_rejections completedGame "x".toList 5 sampleStore).1 (by decide),
   (submitGuess_rejections exhaustedGame "x".toList 5 sampleStore).2.1 (by decide) (by decide),
   (submitGuess_rejections dupGame "karma".toList 5 sampleStore).2.2 (by decide) (by decide)
     (by decide)⟩

/-- C10: the ranker re-validates with default options (no forbidden
words, no existing clues), so only the length and link rules act as
defense in depth: a well-formed clue containing the day's answer is
rejected by the validator when the answer is forbidden, yet retained by
`rankCommunityClues`; likewise two clues with identical normalized text
are both retained. -/
theorem rankCommunityClues_defense_gap :
    (validateCommunityClue answerClue.text
        { forbiddenWords := ["karma".toList], existingClues := [] }).valid = false ∧
    rankCommunityClues [answerClue] 5 = [answerClue] ∧
    (validateCommunityClue answerClueDup.text
        { forbiddenWords := [], existingClues := [answerClue.text] }).valid = false ∧
    rankCommunityClues [answerClue, answerClueDup] 5 = [answerClue, answerClueDup] := by
  decide
